import Mathlib

/-!
Verification of the HVAC physics engine and predictive controller of
`weather-app/backend/api/hvac_simulation/hvac_physics.py`.

Modeling conventions:
* Python floats are modeled as exact arithmetic in a linear ordered field `α`.
  Every function is written once, generically; the spec-level model is the
  instantiation at `α := ℝ` (needed because `math.sqrt` and the wet-bulb
  formula produce irrational values), and the instantiation at `α := ℚ` is
  used to evaluate the very same definitions on concrete rational inputs.
* `math.sqrt` appears only in `HouseProperties.from_house_data` (side length
  of the floor square) and `math.atan`/`math.sqrt`/`** 1.5` only in
  `wet_bulb_temp_c`; those two call sites are the only real-valued ones, so
  each generic core takes that value (resp. a function computing it) as a
  parameter and the `ℝ`-level wrapper fills in the genuine transcendental.
* Python exceptions are modeled by `Option`: a function that can raise
  returns `none` in exactly the inputs where the Python code raises.  The
  only raising site reachable from `simulate_temperature_step` is the
  wet-bulb computation: when `rain > 0.1` the code evaluates
  `wet_bulb_temp_c`, and for `humidity < -8.313659` the inner `math.sqrt`
  raises `ValueError`, while for `-8.313659 <= humidity < 0` the
  `humidity ** 1.5` term is a Python complex number whose propagation makes
  the subsequent comparison/`round` raise `TypeError`; in both cases the
  step raises, so the model returns `none` iff `rain > 0.1 ∧ humidity < 0`.
  All divisions in the code are guarded (`cop > 0`, `thermal_mass > 0`,
  `r_total > 0`), so no other input raises.
* `round(x, n)` is modeled as `py_round x n` (round to `n` decimal digits).
  Mathlib's `round` rounds half away from zero upward while Python rounds
  half to even; the two differ only on exact half-tie values, which none of
  the claims or concrete inputs below exercise.
* `datetime.now()` values (`timestamp`, `generated_at`) influence no
  computation in the functions under verification and are modeled as the
  constant empty string / omitted.
-/

set_option maxRecDepth 100000

section Defs

variable {α : Type} [LinearOrderedField α] [FloorRing α]

/-- Python `round(x, ndigits)` (see the half-tie caveat in the header). -/
def py_round (x : α) (ndigits : ℕ) : α :=
  ((round (x * 10 ^ ndigits) : ℤ) : α) / 10 ^ ndigits

/-- Physical constants of the module. -/
def AIR_DENSITY : α := 1.2

def AIR_SPECIFIC_HEAT : α := 1005

def SQFT_TO_M2 : α := 0.092903

def DEFAULT_CEILING_HEIGHT_M : α := 2.7

def ELECTRICITY_COST_KWH : α := 0.15

/-- `U_VALUES.get(ins, U_VALUES["average"])` (W/m²K). -/
def U_VALUES (ins : String) : α :=
  if ins = "poor" then 1.2 else if ins = "average" then 0.5
  else if ins = "excellent" then 0.15 else 0.5

/-- `R_VALUES.get(ins, R_VALUES["average"])` (m²K/W). -/
def R_VALUES (ins : String) : α :=
  if ins = "poor" then 2.0 else if ins = "average" then 5.0
  else if ins = "excellent" then 10.0 else 5.0

/-- `SHGC_VALUES.get(ins, SHGC_VALUES["average"])`. -/
def SHGC_VALUES (ins : String) : α :=
  if ins = "poor" then 0.80 else if ins = "average" then 0.50
  else if ins = "excellent" then 0.25 else 0.50

/-- `ACH_BASE.get(ins, ACH_BASE["average"])`. -/
def ACH_BASE (ins : String) : α :=
  if ins = "poor" then 1.0 else if ins = "average" then 0.4
  else if ins = "excellent" then 0.1 else 0.4

/-- `KW_VALUES.get(ins, KW_VALUES["average"])`. -/
def KW_VALUES (ins : String) : α :=
  if ins = "poor" then 0.04 else if ins = "average" then 0.02
  else if ins = "excellent" then 0.005 else 0.02

/-- `THERMAL_MASS_PER_M2.get(ins, THERMAL_MASS_PER_M2["average"])` (J/K per m²). -/
def THERMAL_MASS_PER_M2 (ins : String) : α :=
  if ins = "poor" then 50000 else if ins = "average" then 80000
  else if ins = "excellent" then 120000 else 80000

/-- `HVAC_COP_BASE.get(hvac_type, 3.0)`. -/
def HVAC_COP_BASE (hvac_type : String) : α :=
  if hvac_type = "central_ac" then 3.5 else if hvac_type = "heat_pump" then 4.0
  else if hvac_type = "window_unit" then 2.5 else if hvac_type = "mini_split" then 4.5
  else if hvac_type = "furnace" then 0.95 else 3.0

/-- `LAMBDA_VALUES.get(personal_comfort, 0.5)`. -/
def LAMBDA_VALUES (pc : ℤ) : α :=
  if pc = 1 then 0.05 else if pc = 2 then 0.1 else if pc = 3 then 0.2
  else if pc = 4 then 0.3 else if pc = 5 then 0.5 else if pc = 6 then 0.6
  else if pc = 7 then 0.7 else if pc = 8 then 0.8 else if pc = 9 then 0.9
  else if pc = 10 then 1.0 else 0.5

/-- The user's `house_data` dict; `none` models an absent key.  Numeric
values are rational (exact float inputs), category values are strings. -/
structure HouseData where
  home_size : Option ℚ := none
  insulation_quality : Option String := none
  age_of_house : Option ℤ := none
  hvac_type : Option String := none
  hvac_age : Option ℤ := none

/-- `HouseProperties` dataclass. -/
structure HouseProperties (α : Type) where
  floor_area_m2 : α
  volume_m3 : α
  surface_area_m2 : α
  window_area_m2 : α
  u_value : α
  r_value : α
  shgc : α
  ach_base : α
  kw : α
  thermal_mass : α
  kh : α

/-- `float(house_data.get("home_size", 1500))`. -/
def home_size_sqft (hd : HouseData) : ℚ := hd.home_size.getD 1500

/-- `house_data.get("insulation_quality", "average").lower()`. -/
def insulation_of (hd : HouseData) : String :=
  (hd.insulation_quality.getD "average").toLower

/-- `HouseProperties.from_house_data`, with the side length
`math.sqrt(floor_area_m2)` supplied as the parameter `side_length`
(the only irrational quantity; the `ℝ`-level wrapper fills it in). -/
def HouseProperties.from_house_data_core (hd : HouseData) (side_length : α) :
    HouseProperties α :=
  let insulation := insulation_of hd
  let age : ℤ := hd.age_of_house.getD 20
  let floor_area_m2 : α := (home_size_sqft hd : α) * SQFT_TO_M2
  let volume_m3 := floor_area_m2 * DEFAULT_CEILING_HEIGHT_M
  let wall_area := 4 * side_length * DEFAULT_CEILING_HEIGHT_M
  let surface_area_m2 := floor_area_m2 + wall_area
  let window_area_m2 := floor_area_m2 * 0.15
  let u_value : α := U_VALUES insulation
  let r_value : α := R_VALUES insulation
  let shgc : α := SHGC_VALUES insulation
  let ach_base : α := ACH_BASE insulation
  let kw : α := KW_VALUES insulation
  let age_factor : α := 1.0 + min ((age : α) / 50.0) 0.5
  let u_value := u_value * age_factor
  let ach_base := ach_base * age_factor
  let thermal_mass := THERMAL_MASS_PER_M2 insulation * floor_area_m2
  let kh : α := if home_size_sqft hd < 1000 then 65
    else if home_size_sqft hd < 2500 then 150 else 300
  ⟨floor_area_m2, volume_m3, surface_area_m2, window_area_m2, u_value, r_value,
    shgc, ach_base, kw, thermal_mass, kh⟩

/-- The floor area whose square root the source takes. -/
noncomputable def floor_area_of (hd : HouseData) : ℝ := (home_size_sqft hd : ℝ) * SQFT_TO_M2

/-- `HouseProperties.from_house_data` (spec-level, at `ℝ`): `math.sqrt` is
`Real.sqrt` (home sizes are nonnegative in all uses; for them the two agree). -/
noncomputable def HouseProperties.from_house_data (hd : HouseData) : HouseProperties ℝ :=
  HouseProperties.from_house_data_core hd (Real.sqrt (floor_area_of hd))

/-- `WeatherConditions` dataclass (the `timestamp` field influences no
computation in the verified functions and is omitted). -/
structure WeatherConditions (α : Type) where
  temp_outdoor_c : α
  humidity : α
  solar_radiation : α
  windspeed : α
  precipitation : α
  rain : α
  snowfall : α
  dew_point_c : α

/-- Stull approximation `wet_bulb_temp_c` (meaningful for `humidity ≥ 0`;
for `humidity < 0` the Python computation raises, see the header). -/
noncomputable def WeatherConditions.wet_bulb_temp_c (w : WeatherConditions ℝ) : ℝ :=
  w.temp_outdoor_c * Real.arctan (0.151977 * Real.sqrt (w.humidity + 8.313659)) +
    Real.arctan (w.temp_outdoor_c + w.humidity) - Real.arctan (w.humidity - 1.676331) +
    0.00391838 * w.humidity ^ ((3 : ℝ) / 2) * Real.arctan (0.023101 * w.humidity) -
    4.686035

/-- `HVACSystem` dataclass. -/
structure HVACSystem (α : Type) where
  hvac_type : String
  hvac_age : ℤ
  capacity_heating_w : α
  capacity_cooling_w : α

/-- `HVACSystem.from_house_data`.  Note `int(house_data.get("hvac_age", 10) or 10)`:
a *falsy* stored age (0) is replaced by 10. -/
def HVACSystem.from_house_data (hd : HouseData) : HVACSystem α :=
  let hvac_type := ((hd.hvac_type.getD "central_ac").toLower).replace " " "_"
  let hvac_age : ℤ := match hd.hvac_age with
    | none => 10
    | some a => if a = 0 then 10 else a
  let capacity_w : α := (home_size_sqft hd : α) * 20 * 0.293
  ⟨hvac_type, hvac_age, capacity_w, capacity_w⟩

/-- `HVACSystem.get_cop_cooling`. -/
def HVACSystem.get_cop_cooling (hvac : HVACSystem α) (outdoor_temp_c : α) : α :=
  let base_cop := HVAC_COP_BASE hvac.hvac_type
  let age_factor := max 0.6 (1.0 - 0.02 * (hvac.hvac_age : α))
  let temp_factor :=
    if 35 < outdoor_temp_c then max 0.5 (1.0 - 0.02 * (outdoor_temp_c - 35)) else 1.0
  base_cop * age_factor * temp_factor

/-- `HVACSystem.get_cop_heating`. -/
def HVACSystem.get_cop_heating (hvac : HVACSystem α) (outdoor_temp_c : α) : α :=
  if hvac.hvac_type = "furnace" then
    HVAC_COP_BASE "furnace" * max 0.6 (1.0 - 0.01 * (hvac.hvac_age : α))
  else
    let base_cop := HVAC_COP_BASE hvac.hvac_type
    let age_factor := max 0.6 (1.0 - 0.02 * (hvac.hvac_age : α))
    let temp_factor :=
      if outdoor_temp_c < 0 then max 0.3 (1.0 - 0.03 * |outdoor_temp_c|) else 1.0
    base_cop * age_factor * temp_factor

/-- `calc_q_conductive`, with the wet-bulb value supplied through `wbf`.
Returns `none` exactly when the Python computation raises (raining with
negative humidity, see the header). -/
def calc_q_conductive_core (wbf : WeatherConditions α → α) (house : HouseProperties α)
    (weather : WeatherConditions α) (indoor_temp_c : α) : Option α :=
  if 0.1 < weather.rain ∧ weather.humidity < 0 then none else
  let u_eff := house.u_value
  let t_boundary := weather.temp_outdoor_c
  let t_boundary := if 0.1 < weather.rain then wbf weather else t_boundary
  let u_eff :=
    if 0.1 < weather.snowfall then
      let r_snow := weather.snowfall * 0.1
      let r_total := house.r_value + r_snow
      if 0 < r_total then 1.0 / r_total else house.u_value
    else u_eff
  some (u_eff * house.surface_area_m2 * (t_boundary - indoor_temp_c))

/-- `calc_q_wind`. -/
def calc_q_wind (house : HouseProperties α) (weather : WeatherConditions α)
    (indoor_temp_c : α) : α :=
  let ach := house.ach_base + house.kw * weather.windspeed
  AIR_DENSITY * AIR_SPECIFIC_HEAT * house.volume_m3 * ach / 3600 *
    (weather.temp_outdoor_c - indoor_temp_c)

/-- `calc_q_solar`. -/
def calc_q_solar (house : HouseProperties α) (weather : WeatherConditions α) : α :=
  let solar := weather.solar_radiation
  let solar := if 5 < weather.snowfall then solar * 0.5 else solar
  max 0 (house.window_area_m2 * house.shgc * solar)

/-- The `output_fraction` proportional-control curve of `calc_q_hvac` for
heating (the `if/elif` chain on `temp_diff`). -/
def heat_output_fraction (temp_diff deadband : α) : α :=
  if temp_diff ≤ 0 then 0.05
  else if temp_diff ≤ deadband then 0.1
  else if temp_diff ≤ 1.0 then 0.2 + (temp_diff - deadband) * 0.2
  else if temp_diff ≤ 2.0 then 0.4 + (temp_diff - 1.0) * 0.3
  else min 0.9 (0.7 + (temp_diff - 2.0) * 0.1)

/-- The `output_fraction` curve of `calc_q_hvac` for cooling (on `abs_diff`). -/
def cool_output_fraction (temp_diff deadband : α) : α :=
  let abs_diff := |temp_diff|
  if 0 ≤ temp_diff then 0.05
  else if abs_diff ≤ deadband then 0.1
  else if abs_diff ≤ 1.0 then 0.2 + (abs_diff - deadband) * 0.2
  else if abs_diff ≤ 2.0 then 0.4 + (abs_diff - 1.0) * 0.3
  else min 0.9 (0.7 + (abs_diff - 2.0) * 0.1)

/-- `calc_q_hvac`; returns `(Q_hvac, power_draw)` in Watts. -/
def calc_q_hvac (hvac : HVACSystem α) (mode : String) (indoor_temp_c target_temp_c
    outdoor_temp_c : α) (deadband : α := 0.3) : α × α :=
  if mode = "off" then (0.0, 0.0) else
  let temp_diff := target_temp_c - indoor_temp_c
  if mode = "heat" ∨ mode = "pre-heat" then
    if temp_diff ≤ -deadband then (0.0, 0.0)
    else
      let q_hvac := hvac.capacity_heating_w * heat_output_fraction temp_diff deadband
      let cop := hvac.get_cop_heating outdoor_temp_c
      let power_draw := if 0 < cop then q_hvac / cop else q_hvac
      (q_hvac, power_draw)
  else if mode = "cool" ∨ mode = "pre-cool" then
    if deadband ≤ temp_diff then (0.0, 0.0)
    else
      let q_hvac := -hvac.capacity_cooling_w * cool_output_fraction temp_diff deadband
      let cop := hvac.get_cop_cooling outdoor_temp_c
      let power_draw := if 0 < cop then |q_hvac| / cop else |q_hvac|
      (q_hvac, power_draw)
  else (0.0, 0.0)

/-- `simulate_temperature_step` (generic core): returns
`(new_temp_c, hvac_power_w, hvac_energy_kwh)`, or `none` where Python raises. -/
def simulate_temperature_step_core (wbf : WeatherConditions α → α)
    (house : HouseProperties α) (hvac : HVACSystem α) (weather : WeatherConditions α)
    (indoor_temp_c target_temp_c : α) (hvac_mode : String)
    (timestep_seconds : α := 3600) : Option (α × α × α) :=
  let q_solar := calc_q_solar house weather
  let q_wind := calc_q_wind house weather indoor_temp_c
  (calc_q_conductive_core wbf house weather indoor_temp_c).bind fun q_conductive =>
  let qp := calc_q_hvac hvac hvac_mode indoor_temp_c target_temp_c weather.temp_outdoor_c
  let q_total := q_solar + q_wind + q_conductive + qp.1
  let dt := if 0 < house.thermal_mass then q_total * timestep_seconds / house.thermal_mass
    else 0
  let new_temp := indoor_temp_c + dt
  let max_overshoot : α := 0.5
  let tp : α × α :=
    if hvac_mode = "heat" ∨ hvac_mode = "pre-heat" then
      if target_temp_c + max_overshoot < new_temp then
        (target_temp_c + max_overshoot, qp.2 * 0.3)
      else (new_temp, qp.2)
    else if hvac_mode = "cool" ∨ hvac_mode = "pre-cool" then
      if new_temp < target_temp_c - max_overshoot then
        (target_temp_c - max_overshoot, qp.2 * 0.3)
      else (new_temp, qp.2)
    else (new_temp, qp.2)
  let energy_kwh := tp.2 * timestep_seconds / (1000 * 3600)
  some (py_round tp.1 2, py_round tp.2 2, py_round energy_kwh 4)

/-- `simulate_temperature_step` (spec-level, at `ℝ`). -/
noncomputable def simulate_temperature_step (house : HouseProperties ℝ)
    (hvac : HVACSystem ℝ) (weather : WeatherConditions ℝ)
    (indoor_temp_c target_temp_c : ℝ) (hvac_mode : String)
    (timestep_seconds : ℝ := 3600) : Option (ℝ × ℝ × ℝ) :=
  simulate_temperature_step_core WeatherConditions.wet_bulb_temp_c house hvac weather
    indoor_temp_c target_temp_c hvac_mode timestep_seconds

/-- Body of the loop of `predict_temperature`: temperatures after each
forecast step starting from `current_temp` (excluding the start). -/
def predict_temperature_go (wbf : WeatherConditions α → α) (house : HouseProperties α)
    (hvac : HVACSystem α) (target_temp_c : α) (hvac_mode : String) :
    List (WeatherConditions α) → α → Option (List α)
  | [], _ => some []
  | w :: ws, current_temp =>
    (simulate_temperature_step_core wbf house hvac w current_temp target_temp_c
        hvac_mode).bind fun r =>
      (predict_temperature_go wbf house hvac target_temp_c hvac_mode ws r.1).map
        fun rest => r.1 :: rest

/-- `predict_temperature` (generic core): the list `temps`, starting with
`start_temp_c`. -/
def predict_temperature_core (wbf : WeatherConditions α → α) (house : HouseProperties α)
    (hvac : HVACSystem α) (weather_forecast : List (WeatherConditions α))
    (start_temp_c target_temp_c : α) (hvac_mode : String := "off") : Option (List α) :=
  (predict_temperature_go wbf house hvac target_temp_c hvac_mode weather_forecast
      start_temp_c).map fun rest => start_temp_c :: rest

/-- `predict_temperature` (spec-level, at `ℝ`). -/
noncomputable def predict_temperature (house : HouseProperties ℝ) (hvac : HVACSystem ℝ)
    (weather_forecast : List (WeatherConditions ℝ)) (start_temp_c target_temp_c : ℝ)
    (hvac_mode : String := "off") : Option (List ℝ) :=
  predict_temperature_core WeatherConditions.wet_bulb_temp_c house hvac
    weather_forecast start_temp_c target_temp_c hvac_mode

/-- `calculate_cost_function` (`J = P×Price + λ×|T_in − T_set|`). -/
def calculate_cost_function (power_kwh electricity_price indoor_temp_c target_temp_c
    lambda_comfort : α) : α :=
  power_kwh * electricity_price + lambda_comfort * |indoor_temp_c - target_temp_c|

/-- The passive contraction coefficient `α` of an HVAC-off, dry, zero-solar
step: `T_next = T + α (T_out − T)` before rounding (a derived quantity used
only in theorem statements). -/
noncomputable def step_coefficient (house : HouseProperties ℝ) (w : WeatherConditions ℝ)
    (timestep_seconds : ℝ := 3600) : ℝ :=
  (house.u_value * house.surface_area_m2 +
      AIR_DENSITY * AIR_SPECIFIC_HEAT * house.volume_m3 *
        (house.ach_base + house.kw * w.windspeed) / 3600) *
    timestep_seconds / house.thermal_mass



/-!
### Concrete inputs for counterexamples and witnesses

Rational `house_data` dicts and weather samples; side lengths of the floor
areas are rational by construction so the `math.sqrt` wrappers evaluate
exactly.
-/

/-- A pathological house dict: `home_size` chosen so the floor area is
exactly 0.01 m² (side length 0.1 m). -/
def hd1 : HouseData := ⟨some (10000/92903), some "poor", some 50, none, none⟩

/-- 40 °C, dry, calm. -/
def w40Q : WeatherConditions ℚ := ⟨40, 50, 0, 0, 0, 0, 0, 10⟩

/-- 20 °C, dry, calm. -/
def w20Q : WeatherConditions ℚ := ⟨20, 50, 0, 0, 0, 0, 0, 10⟩

/-- 20 °C, dry, 10 km/h wind. -/
def wBenQ : WeatherConditions ℚ := ⟨20, 50, 0, 10, 0, 0, 0, 10⟩

/-- 15 °C, dry, calm. -/
def wXQ : WeatherConditions ℚ := ⟨15, 50, 0, 0, 0, 0, 0, 10⟩

/-- An ordinary fixed house (208 m² envelope, thermal mass 8×10⁶ J/K). -/
def houseXQ : HouseProperties ℚ := ⟨100, 270, 208, 15, 1/2, 5, 1/2, 2/5, 1/50, 8000000, 150⟩

/-- A 10 kW central-AC system, 10 years old. -/
def hvacXQ : HVACSystem ℚ := ⟨"central_ac", 10, 10000, 10000⟩

/-- The hypotheses under which an `hvac_mode = "off"` step has the closed
passive form `T + α (T_out − T)` with a contraction coefficient `α ∈ [0, 1]`:
no heavy rain or snow and no solar gain. -/
def benign_off_weather (house : HouseProperties ℝ) (w : WeatherConditions ℝ) : Prop :=
  w.rain ≤ 0.1 ∧ w.snowfall ≤ 0.1 ∧ w.solar_radiation = 0 ∧
    0 ≤ step_coefficient house w 3600 ∧ step_coefficient house w 3600 ≤ 1

end Defs

section Casts

/-!
Transfer between the executable `ℚ` instantiation and the spec-level `ℝ`
instantiation of the generic definitions: `Rat.cast : ℚ → ℝ` commutes with
every function above whenever the (real-valued) wet-bulb value is not
demanded, i.e. on weather samples with `rain ≤ 0.1` (dry) or `humidity < 0`
(where both instantiations agree on raising).  These lemmas let concrete
`ℝ`-level runs be computed by kernel reduction at `ℚ`.
-/

/-- Weather on which the step's outcome does not involve the wet-bulb value:
either dry, or raising (raining with negative humidity). -/
def wet_bulb_free (w : WeatherConditions ℚ) : Prop := w.rain ≤ 0.1 ∨ w.humidity < 0

/-- Weather on which the Python step does not raise. -/
def no_exception (w : WeatherConditions ℝ) : Prop := ¬(0.1 < w.rain ∧ w.humidity < 0)

/-- A wet-bulb stub for the executable instantiation (never consulted under
`wet_bulb_free`). -/
def zeroWB : WeatherConditions ℚ → ℚ := fun _ => 0

def castOpt (o : Option ℚ) : Option ℝ := o.map (Rat.cast (K := ℝ))

def castT3 (p : ℚ × ℚ × ℚ) : ℝ × ℝ × ℝ :=
  (Rat.cast (K := ℝ) p.1, Rat.cast (K := ℝ) p.2.1, Rat.cast (K := ℝ) p.2.2)

def castOptT3 (o : Option (ℚ × ℚ × ℚ)) : Option (ℝ × ℝ × ℝ) := o.map castT3

def castH (h : HouseProperties ℚ) : HouseProperties ℝ :=
  ⟨h.floor_area_m2, h.volume_m3, h.surface_area_m2, h.window_area_m2, h.u_value,
    h.r_value, h.shgc, h.ach_base, h.kw, h.thermal_mass, h.kh⟩

def castW (w : WeatherConditions ℚ) : WeatherConditions ℝ :=
  ⟨w.temp_outdoor_c, w.humidity, w.solar_radiation, w.windspeed, w.precipitation,
    w.rain, w.snowfall, w.dew_point_c⟩

def castHvac (s : HVACSystem ℚ) : HVACSystem ℝ :=
  ⟨s.hvac_type, s.hvac_age, s.capacity_heating_w, s.capacity_cooling_w⟩

def castOptList (o : Option (List ℚ)) : Option (List ℝ) :=
  o.map (List.map (Rat.cast (K := ℝ)))

/-- Squash lemma: `Rat.cast` of a decimal (scientific) literal. -/
theorem cast_ofSci (m : ℕ) (b : Bool) (e : ℕ) :
    ((OfScientific.ofScientific m b e : ℚ) : ℝ) = OfScientific.ofScientific m b e :=
  Rat.cast_ofScientific m b e

theorem cast_AIR_DENSITY : ((AIR_DENSITY : ℚ) : ℝ) = AIR_DENSITY :=
  cast_ofSci _ _ _

theorem cast_AIR_SPECIFIC_HEAT : ((AIR_SPECIFIC_HEAT : ℚ) : ℝ) = AIR_SPECIFIC_HEAT := by
  unfold AIR_SPECIFIC_HEAT; norm_num

theorem cast_SQFT_TO_M2 : ((SQFT_TO_M2 : ℚ) : ℝ) = SQFT_TO_M2 :=
  cast_ofSci _ _ _

theorem cast_DEFAULT_CEILING_HEIGHT_M :
    ((DEFAULT_CEILING_HEIGHT_M : ℚ) : ℝ) = DEFAULT_CEILING_HEIGHT_M :=
  cast_ofSci _ _ _

theorem cast_ELECTRICITY_COST_KWH :
    ((ELECTRICITY_COST_KWH : ℚ) : ℝ) = ELECTRICITY_COST_KWH :=
  cast_ofSci _ _ _

theorem cast_U_VALUES (s : String) : ((U_VALUES s : ℚ) : ℝ) = U_VALUES s := by
  unfold U_VALUES; split_ifs <;> first | exact cast_ofSci _ _ _ | norm_num

theorem cast_R_VALUES (s : String) : ((R_VALUES s : ℚ) : ℝ) = R_VALUES s := by
  unfold R_VALUES; split_ifs <;> first | exact cast_ofSci _ _ _ | norm_num

theorem cast_SHGC_VALUES (s : String) : ((SHGC_VALUES s : ℚ) : ℝ) = SHGC_VALUES s := by
  unfold SHGC_VALUES; split_ifs <;> first | exact cast_ofSci _ _ _ | norm_num

theorem cast_ACH_BASE (s : String) : ((ACH_BASE s : ℚ) : ℝ) = ACH_BASE s := by
  unfold ACH_BASE; split_ifs <;> first | exact cast_ofSci _ _ _ | norm_num

theorem cast_KW_VALUES (s : String) : ((KW_VALUES s : ℚ) : ℝ) = KW_VALUES s := by
  unfold KW_VALUES; split_ifs <;> first | exact cast_ofSci _ _ _ | norm_num

theorem cast_THERMAL_MASS_PER_M2 (s : String) :
    ((THERMAL_MASS_PER_M2 s : ℚ) : ℝ) = THERMAL_MASS_PER_M2 s := by
  unfold THERMAL_MASS_PER_M2; split_ifs <;> first | exact cast_ofSci _ _ _ | norm_num

theorem cast_HVAC_COP_BASE (s : String) :
    ((HVAC_COP_BASE s : ℚ) : ℝ) = HVAC_COP_BASE s := by
  unfold HVAC_COP_BASE; split_ifs <;> first | exact cast_ofSci _ _ _ | norm_num

set_option maxHeartbeats 1000000 in
theorem cast_LAMBDA_VALUES (pc : ℤ) :
    ((LAMBDA_VALUES pc : ℚ) : ℝ) = LAMBDA_VALUES pc := by
  unfold LAMBDA_VALUES; split_ifs <;> first | exact cast_ofSci _ _ _ | norm_num

theorem py_round_cast (x : ℚ) (d : ℕ) : py_round ((x : ℝ)) d = ((py_round x d : ℚ) : ℝ) := by
  unfold py_round
  rw [show ((x : ℝ) * 10 ^ d) = ((x * 10 ^ d : ℚ) : ℝ) by push_cast; ring, Rat.round_cast]
  push_cast; ring

theorem from_house_data_core_cast (hd : HouseData) (side : ℚ) :
    HouseProperties.from_house_data_core hd ((side : ℝ)) =
      castH (HouseProperties.from_house_data_core hd side) := by
  unfold HouseProperties.from_house_data_core castH
  simp only [HouseProperties.mk.injEq]
  refine ⟨?_, ?_, ?_, ?_, ?_, ?_, ?_, ?_, ?_, ?_, ?_⟩ <;>
    push_cast [cast_ofSci, cast_U_VALUES, cast_R_VALUES, cast_SHGC_VALUES, cast_ACH_BASE,
      cast_KW_VALUES, cast_THERMAL_MASS_PER_M2, cast_SQFT_TO_M2,
      cast_DEFAULT_CEILING_HEIGHT_M, apply_ite (Rat.cast (K := ℝ))] <;>
    norm_num

theorem hvac_from_house_data_cast (hd : HouseData) :
    (HVACSystem.from_house_data hd : HVACSystem ℝ) =
      castHvac (HVACSystem.from_house_data hd) := by
  unfold HVACSystem.from_house_data castHvac
  simp only [HVACSystem.mk.injEq, eq_self_iff_true, true_and]
  push_cast [cast_ofSci]
  norm_num

theorem get_cop_cooling_cast (s : HVACSystem ℚ) (t : ℚ) :
    (castHvac s).get_cop_cooling ((t : ℝ)) = ((s.get_cop_cooling t : ℚ) : ℝ) := by
  unfold HVACSystem.get_cop_cooling castHvac
  simp only
  simp only [← Rat.cast_ofScientific (K := ℝ), ← Rat.cast_ofNat (α := ℝ),
    ← Rat.cast_zero (α := ℝ), ← Rat.cast_one (α := ℝ)]
  simp only [Rat.cast_lt, Rat.cast_le, Rat.cast_inj]
  push_cast [cast_ofSci, cast_HVAC_COP_BASE, apply_ite (Rat.cast (K := ℝ))]
  norm_cast

theorem get_cop_heating_cast (s : HVACSystem ℚ) (t : ℚ) :
    (castHvac s).get_cop_heating ((t : ℝ)) = ((s.get_cop_heating t : ℚ) : ℝ) := by
  unfold HVACSystem.get_cop_heating castHvac
  simp only
  simp only [← Rat.cast_ofScientific (K := ℝ), ← Rat.cast_ofNat (α := ℝ),
    ← Rat.cast_zero (α := ℝ), ← Rat.cast_one (α := ℝ)]
  simp only [Rat.cast_lt, Rat.cast_le, Rat.cast_inj]
  push_cast [cast_ofSci, cast_HVAC_COP_BASE, apply_ite (Rat.cast (K := ℝ))]
  norm_cast

theorem calc_q_solar_cast (h : HouseProperties ℚ) (w : WeatherConditions ℚ) :
    calc_q_solar (castH h) (castW w) = ((calc_q_solar h w : ℚ) : ℝ) := by
  unfold calc_q_solar castH castW
  simp only
  simp only [← Rat.cast_ofScientific (K := ℝ), ← Rat.cast_ofNat (α := ℝ),
    ← Rat.cast_zero (α := ℝ), ← Rat.cast_one (α := ℝ)]
  simp only [Rat.cast_lt, Rat.cast_le, Rat.cast_inj]
  push_cast [cast_ofSci, apply_ite (Rat.cast (K := ℝ))]
  norm_cast

theorem calc_q_wind_cast (h : HouseProperties ℚ) (w : WeatherConditions ℚ) (T : ℚ) :
    calc_q_wind (castH h) (castW w) ((T : ℝ)) = ((calc_q_wind h w T : ℚ) : ℝ) := by
  unfold calc_q_wind castH castW
  push_cast [cast_ofSci, cast_AIR_DENSITY, cast_AIR_SPECIFIC_HEAT]
  ring

theorem calc_q_conductive_core_cast (wbfR : WeatherConditions ℝ → ℝ)
    (wbfQ : WeatherConditions ℚ → ℚ) (h : HouseProperties ℚ) (w : WeatherConditions ℚ)
    (T : ℚ) (hw : wet_bulb_free w) :
    calc_q_conductive_core wbfR (castH h) (castW w) ((T : ℝ)) =
      castOpt (calc_q_conductive_core wbfQ h w T) := by
  unfold calc_q_conductive_core castH castW castOpt
  simp only
  by_cases hrain : (0.1 : ℚ) < w.rain
  · have hhum : w.humidity < 0 := by
      rcases hw with hw | hw
      · exact absurd hrain (not_lt.mpr hw)
      · exact hw
    have hgQ : (0.1 : ℚ) < w.rain ∧ w.humidity < 0 := ⟨hrain, hhum⟩
    have hgR : (0.1 : ℝ) < ((w.rain : ℚ) : ℝ) ∧ ((w.humidity : ℚ) : ℝ) < 0 := by
      constructor
      · rw [show (0.1 : ℝ) = ((0.1 : ℚ) : ℝ) from (cast_ofSci _ _ _).symm, Rat.cast_lt]
        exact hrain
      · exact_mod_cast hhum
    rw [if_pos hgR, if_pos hgQ]
    rfl
  · have hrainR : ¬((0.1 : ℝ) < ((w.rain : ℚ) : ℝ)) := by
      rw [show (0.1 : ℝ) = ((0.1 : ℚ) : ℝ) from (cast_ofSci _ _ _).symm, Rat.cast_lt]
      exact hrain
    rw [if_neg (show ¬((0.1 : ℝ) < ((w.rain : ℚ) : ℝ) ∧ ((w.humidity : ℚ) : ℝ) < 0) from
        fun hc => hrainR hc.1),
      if_neg (show ¬((0.1 : ℚ) < w.rain ∧ w.humidity < 0) from fun hc => hrain hc.1),
      Option.map_some', if_neg hrainR, if_neg hrain]
    congr 1
    by_cases hsnow : (0.1 : ℚ) < w.snowfall
    · have hsnowR : (0.1 : ℝ) < ((w.snowfall : ℚ) : ℝ) := by
        rw [show (0.1 : ℝ) = ((0.1 : ℚ) : ℝ) from (cast_ofSci _ _ _).symm, Rat.cast_lt]
        exact hsnow
      rw [if_pos hsnowR, if_pos hsnow]
      by_cases hrt : (0 : ℚ) < h.r_value + w.snowfall * 0.1
      · have hrtR : (0 : ℝ) < ((h.r_value : ℚ) : ℝ) + ((w.snowfall : ℚ) : ℝ) * (0.1 : ℝ) := by
          rw [show (0.1 : ℝ) = ((0.1 : ℚ) : ℝ) from (cast_ofSci _ _ _).symm]
          exact_mod_cast hrt
        rw [if_pos hrtR, if_pos hrt]
        push_cast [cast_ofSci]
        ring
      · have hrtR : ¬((0 : ℝ) < ((h.r_value : ℚ) : ℝ) + ((w.snowfall : ℚ) : ℝ) * (0.1 : ℝ)) := by
          rw [show (0.1 : ℝ) = ((0.1 : ℚ) : ℝ) from (cast_ofSci _ _ _).symm]
          intro hc
          exact hrt (by exact_mod_cast hc)
        rw [if_neg hrtR, if_neg hrt]
        push_cast [cast_ofSci]
        ring
    · have hsnowR : ¬((0.1 : ℝ) < ((w.snowfall : ℚ) : ℝ)) := by
        rw [show (0.1 : ℝ) = ((0.1 : ℚ) : ℝ) from (cast_ofSci _ _ _).symm, Rat.cast_lt]
        exact hsnow
      rw [if_neg hsnowR, if_neg hsnow]
      push_cast [cast_ofSci]
      ring

theorem castT3_mk (a b c : ℚ) : castT3 (a, b, c) = ((a : ℝ), (b : ℝ), (c : ℝ)) := rfl

theorem castHvac_type (s : HVACSystem ℚ) : (castHvac s).hvac_type = s.hvac_type := rfl

theorem castHvac_heat_w (s : HVACSystem ℚ) :
    (castHvac s).capacity_heating_w = ((s.capacity_heating_w : ℚ) : ℝ) := rfl

theorem castHvac_cool_w (s : HVACSystem ℚ) :
    (castHvac s).capacity_cooling_w = ((s.capacity_cooling_w : ℚ) : ℝ) := rfl

theorem heat_output_fraction_cast (t d : ℚ) :
    heat_output_fraction ((t : ℝ)) ((d : ℝ)) = ((heat_output_fraction t d : ℚ) : ℝ) := by
  unfold heat_output_fraction
  simp only [← cast_ofSci, ← Rat.cast_ofNat (α := ℝ), ← Rat.cast_zero (α := ℝ),
    ← Rat.cast_one (α := ℝ), ← Rat.cast_neg, ← Rat.cast_sub, ← Rat.cast_mul,
    ← Rat.cast_add, ← Rat.cast_div, ← Rat.cast_min, ← Rat.cast_abs]
  simp only [Rat.cast_lt, Rat.cast_le, Rat.cast_inj]
  split_ifs <;> push_cast <;> ring

theorem cool_output_fraction_cast (t d : ℚ) :
    cool_output_fraction ((t : ℝ)) ((d : ℝ)) = ((cool_output_fraction t d : ℚ) : ℝ) := by
  unfold cool_output_fraction
  simp only [← cast_ofSci, ← Rat.cast_ofNat (α := ℝ), ← Rat.cast_zero (α := ℝ),
    ← Rat.cast_one (α := ℝ), ← Rat.cast_neg, ← Rat.cast_sub, ← Rat.cast_mul,
    ← Rat.cast_add, ← Rat.cast_div, ← Rat.cast_min, ← Rat.cast_abs]
  simp only [Rat.cast_lt, Rat.cast_le, Rat.cast_inj]
  split_ifs <;> push_cast <;> ring

set_option maxHeartbeats 2000000 in
theorem calc_q_hvac_cast (s : HVACSystem ℚ) (mode : String) (T tgt tout d : ℚ) :
    calc_q_hvac (castHvac s) mode ((T : ℝ)) ((tgt : ℝ)) ((tout : ℝ)) ((d : ℝ)) =
      ((((calc_q_hvac s mode T tgt tout d).1 : ℚ) : ℝ),
        (((calc_q_hvac s mode T tgt tout d).2 : ℚ) : ℝ)) := by
  unfold calc_q_hvac
  simp only [get_cop_heating_cast, get_cop_cooling_cast, castHvac_type, castHvac_heat_w,
    castHvac_cool_w]
  simp only [show ((tgt : ℝ)) - ((T : ℝ)) = (((tgt - T : ℚ)) : ℝ) by push_cast; ring,
    heat_output_fraction_cast, cool_output_fraction_cast]
  simp only [← cast_ofSci, ← Rat.cast_ofNat (α := ℝ), ← Rat.cast_zero (α := ℝ),
    ← Rat.cast_one (α := ℝ), ← Rat.cast_neg, ← Rat.cast_sub, ← Rat.cast_mul,
    ← Rat.cast_add, ← Rat.cast_div, ← Rat.cast_min, ← Rat.cast_abs]
  simp only [Rat.cast_lt, Rat.cast_le, Rat.cast_inj]
  split_ifs <;>
    simp only [Prod.mk.injEq] <;>
    constructor <;>
    push_cast <;>
    ring

theorem py_round_cast_of_eq {x : ℝ} {y : ℚ} (d : ℕ) (h : x = ((y : ℚ) : ℝ)) :
    py_round x d = ((py_round y d : ℚ) : ℝ) := by rw [h, py_round_cast]

set_option maxHeartbeats 2000000 in
theorem simulate_temperature_step_core_cast (wbfR : WeatherConditions ℝ → ℝ)
    (wbfQ : WeatherConditions ℚ → ℚ) (h : HouseProperties ℚ) (s : HVACSystem ℚ)
    (w : WeatherConditions ℚ) (T tgt ts : ℚ) (mode : String) (hw : wet_bulb_free w) :
    simulate_temperature_step_core wbfR (castH h) (castHvac s) (castW w) ((T : ℝ))
        ((tgt : ℝ)) mode ((ts : ℝ)) =
      castOptT3 (simulate_temperature_step_core wbfQ h s w T tgt mode ts) := by
  unfold simulate_temperature_step_core
  rw [calc_q_conductive_core_cast wbfR wbfQ h w T hw]
  cases hc : calc_q_conductive_core wbfQ h w T with
  | none => rfl
  | some qc =>
    simp only [castOpt, castOptT3, Option.map_some', Option.some_bind]
    rw [show (castW w).temp_outdoor_c = ((w.temp_outdoor_c : ℚ) : ℝ) from rfl,
      show (castH h).thermal_mass = ((h.thermal_mass : ℚ) : ℝ) from rfl,
      show (0.3 : ℝ) = ((0.3 : ℚ) : ℝ) from (cast_ofSci _ _ _).symm]
    rw [calc_q_hvac_cast s mode T tgt w.temp_outdoor_c (0.3 : ℚ),
      calc_q_solar_cast h w, calc_q_wind_cast h w T]
    by_cases hm : (0 : ℚ) < h.thermal_mass
    · rw [if_pos (show (0 : ℝ) < ((h.thermal_mass : ℚ) : ℝ) by exact_mod_cast hm),
        if_pos hm]
      simp only [← cast_ofSci, ← Rat.cast_ofNat (α := ℝ), ← Rat.cast_zero (α := ℝ),
        ← Rat.cast_one (α := ℝ), ← Rat.cast_neg, ← Rat.cast_sub, ← Rat.cast_mul,
        ← Rat.cast_add, ← Rat.cast_div, ← Rat.cast_min, ← Rat.cast_abs]
      simp only [Rat.cast_lt, Rat.cast_le, Rat.cast_inj]
      split_ifs <;>
        simp only [castT3_mk, Option.some.injEq, Prod.mk.injEq] <;>
        refine ⟨py_round_cast_of_eq 2 ?_, py_round_cast_of_eq 2 ?_, py_round_cast_of_eq 4 ?_⟩ <;>
        push_cast <;>
        ring
    · rw [if_neg (show ¬((0 : ℝ) < ((h.thermal_mass : ℚ) : ℝ)) by exact_mod_cast hm),
        if_neg hm]
      simp only [← cast_ofSci, ← Rat.cast_ofNat (α := ℝ), ← Rat.cast_zero (α := ℝ),
        ← Rat.cast_one (α := ℝ), ← Rat.cast_neg, ← Rat.cast_sub, ← Rat.cast_mul,
        ← Rat.cast_add, ← Rat.cast_div, ← Rat.cast_min, ← Rat.cast_abs]
      simp only [Rat.cast_lt, Rat.cast_le, Rat.cast_inj]
      split_ifs <;>
        simp only [castT3_mk, Option.some.injEq, Prod.mk.injEq] <;>
        refine ⟨py_round_cast_of_eq 2 ?_, py_round_cast_of_eq 2 ?_, py_round_cast_of_eq 4 ?_⟩ <;>
        push_cast <;>
        ring

theorem cast_ts_default : (3600 : ℝ) = ((3600 : ℚ) : ℝ) := by norm_num

theorem predict_temperature_go_cast (wbfR : WeatherConditions ℝ → ℝ)
    (wbfQ : WeatherConditions ℚ → ℚ) (h : HouseProperties ℚ) (s : HVACSystem ℚ)
    (tgt : ℚ) (mode : String) :
    ∀ (ws : List (WeatherConditions ℚ)) (T : ℚ), (∀ w ∈ ws, wet_bulb_free w) →
      predict_temperature_go wbfR (castH h) (castHvac s) ((tgt : ℝ)) mode
          (ws.map castW) ((T : ℝ)) =
        castOptList (predict_temperature_go wbfQ h s tgt mode ws T) := by
  intro ws
  induction ws with
  | nil => intro T _; rfl
  | cons w ws ih =>
    intro T hws
    have hw : wet_bulb_free w := hws w (List.mem_cons_self w ws)
    have hws' : ∀ w' ∈ ws, wet_bulb_free w' := fun w' hmem => hws w' (List.mem_cons_of_mem w hmem)
    show (simulate_temperature_step_core wbfR (castH h) (castHvac s) (castW w) ((T : ℝ))
        ((tgt : ℝ)) mode 3600).bind _ = _
    rw [cast_ts_default, simulate_temperature_step_core_cast wbfR wbfQ h s w T tgt
      (3600 : ℚ) mode hw]
    cases hstep : simulate_temperature_step_core wbfQ h s w T tgt mode 3600 with
    | none =>
      simp only [predict_temperature_go, hstep, castOptT3, castOptList, Option.map_none',
        Option.none_bind]
    | some r =>
      simp only [predict_temperature_go, hstep, castOptT3, Option.map_some',
        Option.some_bind]
      rw [show (castT3 r).1 = ((r.1 : ℚ) : ℝ) from rfl, ih r.1 hws']
      cases predict_temperature_go wbfQ h s tgt mode ws r.1 with
      | none => rfl
      | some rest => rfl

theorem predict_temperature_cast (h : HouseProperties ℚ) (s : HVACSystem ℚ)
    (wbfQ : WeatherConditions ℚ → ℚ) (ws : List (WeatherConditions ℚ)) (T tgt : ℚ)
    (mode : String) (hws : ∀ w ∈ ws, wet_bulb_free w) :
    predict_temperature (castH h) (castHvac s) (ws.map castW) ((T : ℝ)) ((tgt : ℝ)) mode =
      castOptList (predict_temperature_core wbfQ h s ws T tgt mode) := by
  unfold predict_temperature predict_temperature_core
  rw [predict_temperature_go_cast WeatherConditions.wet_bulb_temp_c wbfQ h s tgt mode ws T hws]
  cases predict_temperature_go wbfQ h s tgt mode ws T with
  | none => rfl
  | some rest => rfl

end Casts

section Analysis

/-!
Spec-level analytic facts about the `ℝ` instantiation: rounding bounds,
the closed form of an HVAC-off step, and structural invariants of the
scheduling loop.
-/

theorem round_mono_le {x y : ℝ} (h : x ≤ y) : round x ≤ round y := by
  rw [round_eq, round_eq]
  exact Int.floor_le_floor (by linarith)

theorem py_round_zero (d : ℕ) : py_round (0 : ℝ) d = 0 := by
  unfold py_round
  simp

theorem abs_py_round_sub (x : ℝ) (d : ℕ) : |py_round x d - x| ≤ 1 / (2 * 10 ^ d) := by
  unfold py_round
  have hpow : (0 : ℝ) < 10 ^ d := by positivity
  have h := abs_sub_round (x * 10 ^ d)
  rw [abs_sub_comm] at h
  have h2 : |(((round (x * 10 ^ d) : ℤ) : ℝ)) / 10 ^ d - x| =
      |((round (x * 10 ^ d) : ℤ) : ℝ) - x * 10 ^ d| / 10 ^ d := by
    rw [← abs_of_pos hpow, ← abs_div]
    congr 1
    field_simp
    ring
  rw [h2]
  rw [div_le_div_iff hpow (by positivity)]
  calc |((round (x * 10 ^ d) : ℤ) : ℝ) - x * 10 ^ d| * (2 * 10 ^ d)
      ≤ (1 / 2) * (2 * 10 ^ d) := by
        apply mul_le_mul_of_nonneg_right h (by positivity)
    _ = 1 * 10 ^ d := by ring

theorem py_round_le_add (x : ℝ) (d : ℕ) : py_round x d ≤ x + 1 / (2 * 10 ^ d) := by
  have h := abs_py_round_sub x d
  have := abs_le.mp h
  linarith [this.2]

theorem sub_le_py_round (x : ℝ) (d : ℕ) : x - 1 / (2 * 10 ^ d) ≤ py_round x d := by
  have h := abs_py_round_sub x d
  have := abs_le.mp h
  linarith [this.1]

theorem py_round_mono {x y : ℝ} (d : ℕ) (h : x ≤ y) : py_round x d ≤ py_round y d := by
  unfold py_round
  have hpow : (0 : ℝ) < 10 ^ d := by positivity
  apply div_le_div_of_le_of_nonneg ?_ hpow.le
  exact_mod_cast round_mono_le (mul_le_mul_of_nonneg_right h hpow.le)

theorem py_round_int (n : ℤ) (d : ℕ) : py_round ((n : ℝ) / 10 ^ d) d = (n : ℝ) / 10 ^ d := by
  unfold py_round
  have hpow : (10 : ℝ) ^ d ≠ 0 := by positivity
  rw [div_mul_cancel₀ _ hpow, round_intCast]

theorem py_round_grid (x : ℝ) (d : ℕ) : ∃ n : ℤ, py_round x d = (n : ℝ) / 10 ^ d :=
  ⟨round (x * 10 ^ d), rfl⟩

theorem py_round_mem_Icc {x : ℝ} (na nb : ℤ) {a b : ℝ} (ha : a = (na : ℝ) / 10 ^ 2)
    (hb : b = (nb : ℝ) / 10 ^ 2) (h1 : a ≤ x) (h2 : x ≤ b) :
    a ≤ py_round x 2 ∧ py_round x 2 ≤ b := by
  constructor
  · calc a = py_round a 2 := by rw [ha, py_round_int]
      _ ≤ py_round x 2 := py_round_mono 2 h1
  · calc py_round x 2 ≤ py_round b 2 := py_round_mono 2 h2
      _ = b := by rw [hb, py_round_int]

theorem convex_between {T To c : ℝ} (h0 : 0 ≤ c) (h1 : c ≤ 1) :
    min T To ≤ T + c * (To - T) ∧ T + c * (To - T) ≤ max T To := by
  rcases le_total T To with h | h
  · rw [min_eq_left h, max_eq_right h]
    constructor <;> nlinarith
  · rw [min_eq_right h, max_eq_left h]
    constructor <;> nlinarith

theorem simulate_step_off_eval (house : HouseProperties ℝ) (hvac : HVACSystem ℝ)
    (w : WeatherConditions ℝ) (T tgt : ℝ) (hrain : w.rain ≤ 0.1) (hsnow : w.snowfall ≤ 0.1)
    (hsolar : w.solar_radiation = 0) (hmass : 0 < house.thermal_mass) :
    simulate_temperature_step house hvac w T tgt "off" 3600 =
      some (py_round (T + step_coefficient house w 3600 * (w.temp_outdoor_c - T)) 2, 0, 0) := by
  unfold simulate_temperature_step simulate_temperature_step_core calc_q_solar calc_q_wind
    calc_q_conductive_core calc_q_hvac
  dsimp only
  rw [if_neg (show ¬(0.1 < w.rain ∧ w.humidity < 0) from fun hc => absurd hc.1 (not_lt.mpr hrain))]
  rw [if_neg (not_lt.mpr hrain)]
  rw [if_neg (not_lt.mpr hsnow)]
  rw [if_neg (show ¬((5:ℝ) < w.snowfall) from not_lt.mpr (hsnow.trans (by norm_num)))]
  rw [if_pos (show "off" = "off" from rfl)]
  simp only [Option.some_bind]
  rw [if_pos hmass]
  rw [if_neg (show ¬("off" = "heat" ∨ "off" = "pre-heat") by decide)]
  rw [if_neg (show ¬("off" = "cool" ∨ "off" = "pre-cool") by decide)]
  simp only [Option.some.injEq, Prod.mk.injEq]
  have hm' : house.thermal_mass ≠ 0 := hmass.ne'
  refine ⟨?_, ?_, ?_⟩
  · congr 1
    unfold step_coefficient
    rw [hsolar, mul_zero, max_self]
    field_simp
    ring
  · rw [show (0.0 : ℝ) = 0 by norm_num]
    exact py_round_zero 2
  · rw [show (0.0 : ℝ) * 3600 / (1000 * 3600) = 0 by norm_num]
    exact py_round_zero 4

end Analysis

section Wrappers

/-!
Casts for the `ℝ`-level wrappers: when `math.sqrt(floor_area)` has an exact
rational value, the real-valued entry points agree with the executable
rational instantiation.
-/

theorem sqrt_floor_area (hd : HouseData) (side : ℚ) (h0 : 0 ≤ side)
    (hsq : floor_area_of hd = ((side : ℚ) : ℝ) * ((side : ℚ) : ℝ)) :
    Real.sqrt (floor_area_of hd) = ((side : ℚ) : ℝ) := by
  rw [hsq]
  exact Real.sqrt_mul_self (by exact_mod_cast h0)

theorem from_house_data_cast (hd : HouseData) (side : ℚ)
    (hside : Real.sqrt (floor_area_of hd) = ((side : ℚ) : ℝ)) :
    HouseProperties.from_house_data hd =
      castH (HouseProperties.from_house_data_core hd side) := by
  unfold HouseProperties.from_house_data
  rw [hside]
  exact from_house_data_core_cast hd side

theorem simulate_temperature_step_cast (h : HouseProperties ℚ) (s : HVACSystem ℚ)
    (w : WeatherConditions ℚ) (T tgt ts : ℚ) (mode : String) (hw : wet_bulb_free w) :
    simulate_temperature_step (castH h) (castHvac s) (castW w) ((T : ℝ)) ((tgt : ℝ))
        mode ((ts : ℝ)) =
      castOptT3 (simulate_temperature_step_core zeroWB h s w T tgt mode ts) := by
  unfold simulate_temperature_step
  exact simulate_temperature_step_core_cast WeatherConditions.wet_bulb_temp_c zeroWB
    h s w T tgt ts mode hw

end Wrappers

section Props

/-!
Structural properties of the `ℝ`-level model: totality on non-raising
weather, the rounding shape of one step, and the bookkeeping invariants
of the scheduling loop.
-/

theorem calc_q_conductive_core_isSome (wbf : WeatherConditions ℝ → ℝ)
    (house : HouseProperties ℝ) (w : WeatherConditions ℝ) (T : ℝ) (hw : no_exception w) :
    (calc_q_conductive_core wbf house w T).isSome = true := by
  unfold calc_q_conductive_core
  rw [if_neg hw]
  rfl

theorem step_core_shape (wbf : WeatherConditions ℝ → ℝ) (house : HouseProperties ℝ)
    (hvac : HVACSystem ℝ) (w : WeatherConditions ℝ) (T tgt ts : ℝ) (mode : String)
    (hw : no_exception w) :
    ∃ t P : ℝ, simulate_temperature_step_core wbf house hvac w T tgt mode ts =
      some (py_round t 2, py_round P 2, py_round (P * ts / (1000 * 3600)) 4) := by
  unfold simulate_temperature_step_core
  obtain ⟨q, hq⟩ := Option.isSome_iff_exists.mp (calc_q_conductive_core_isSome wbf house w T hw)
  rw [hq]
  exact ⟨_, _, rfl⟩

theorem step_core_isSome (wbf : WeatherConditions ℝ → ℝ) (house : HouseProperties ℝ)
    (hvac : HVACSystem ℝ) (w : WeatherConditions ℝ) (T tgt ts : ℝ) (mode : String)
    (hw : no_exception w) :
    (simulate_temperature_step_core wbf house hvac w T tgt mode ts).isSome = true := by
  obtain ⟨t, P, h⟩ := step_core_shape wbf house hvac w T tgt ts mode hw
  rw [h]
  rfl

end Props

section ClaimHelpers

/-!
Helper lemmas for the claim theorems: rounding-with-slack bounds, the
overshoot clamp of one step, range preservation of the passive iteration,
and exact side lengths of the fixture houses.
-/

theorem py_round_le_of_le {x b : ℝ} (h : x ≤ b) : py_round x 2 ≤ b + 1 / 200 := by
  have h1 := py_round_le_add x 2
  have h2 : (1 : ℝ) / (2 * 10 ^ 2) = 1 / 200 := by norm_num
  linarith

theorem le_py_round_of_le {x b : ℝ} (h : b ≤ x) : b - 1 / 200 ≤ py_round x 2 := by
  have h1 := sub_le_py_round x 2
  have h2 : (1 : ℝ) / (2 * 10 ^ 2) = 1 / 200 := by norm_num
  linarith

theorem clamp_ite_le (tgt n q2 q3 : ℝ) :
    (if tgt + 0.5 < n then (tgt + 0.5, q2) else (n, q3)).1 ≤ tgt + 0.5 := by
  split_ifs with h
  · exact le_rfl
  · exact not_lt.mp h

theorem clamp_ite_ge (tgt n q2 q3 : ℝ) :
    tgt - 0.5 ≤ (if n < tgt - 0.5 then (tgt - 0.5, q2) else (n, q3)).1 := by
  split_ifs with h
  · exact le_rfl
  · exact not_lt.mp h

theorem step_core_clamped (wbf : WeatherConditions ℝ → ℝ) (house : HouseProperties ℝ)
    (hvac : HVACSystem ℝ) (w : WeatherConditions ℝ) (T tgt ts : ℝ) (mode : String)
    (out : ℝ × ℝ × ℝ)
    (hout : simulate_temperature_step_core wbf house hvac w T tgt mode ts = some out) :
    ((mode = "heat" ∨ mode = "pre-heat") → out.1 ≤ tgt + 0.5 + 1 / 200) ∧
    ((mode = "cool" ∨ mode = "pre-cool") → tgt - 0.5 - 1 / 200 ≤ out.1) := by
  unfold simulate_temperature_step_core at hout
  cases hc : calc_q_conductive_core wbf house w T with
  | none => rw [hc] at hout; exact absurd hout (by simp)
  | some q =>
    rw [hc] at hout
    simp only [Option.some_bind, Option.some.injEq] at hout
    subst hout
    constructor
    · intro hmode
      rw [if_pos hmode]
      exact py_round_le_of_le (clamp_ite_le tgt _ _ _)
    · intro hmode
      rcases hmode with h | h <;> subst h <;>
        rw [if_neg (by decide), if_pos (by decide)] <;>
        exact le_py_round_of_le (clamp_ite_ge tgt _ _ _)

theorem step_off_bounds (house : HouseProperties ℝ) (w : WeatherConditions ℝ) (T : ℝ)
    (h01 : 0 ≤ step_coefficient house w 3600 ∧ step_coefficient house w 3600 ≤ 1)
    (hT : -50 ≤ T ∧ T ≤ 70) (hw : -50 ≤ w.temp_outdoor_c ∧ w.temp_outdoor_c ≤ 70) :
    -50 ≤ py_round (T + step_coefficient house w 3600 * (w.temp_outdoor_c - T)) 2 ∧
      py_round (T + step_coefficient house w 3600 * (w.temp_outdoor_c - T)) 2 ≤ 70 := by
  obtain ⟨hc1, hc2⟩ :=
    @convex_between T w.temp_outdoor_c (step_coefficient house w 3600) h01.1 h01.2
  have hlo : (-50 : ℝ) ≤ T + step_coefficient house w 3600 * (w.temp_outdoor_c - T) :=
    le_trans (le_min hT.1 hw.1) hc1
  have hhi : T + step_coefficient house w 3600 * (w.temp_outdoor_c - T) ≤ 70 :=
    le_trans hc2 (max_le hT.2 hw.2)
  exact py_round_mem_Icc (-5000) 7000 (by norm_num) (by norm_num) hlo hhi

theorem predict_go_off_bounds (house : HouseProperties ℝ) (hvac : HVACSystem ℝ) (tgt : ℝ)
    (hmass : 0 < house.thermal_mass) (ws : List (WeatherConditions ℝ)) :
    ∀ (T : ℝ) (l : List ℝ),
      (∀ w ∈ ws, benign_off_weather house w ∧ -50 ≤ w.temp_outdoor_c ∧
        w.temp_outdoor_c ≤ 70) →
      -50 ≤ T → T ≤ 70 →
      predict_temperature_go WeatherConditions.wet_bulb_temp_c house hvac tgt "off" ws T =
        some l →
      ∀ t ∈ l, -50 ≤ t ∧ t ≤ 70 := by
  induction ws with
  | nil =>
    intro T l _ _ _ hl t ht
    simp only [predict_temperature_go, Option.some.injEq] at hl
    rw [← hl] at ht
    exact absurd ht (List.not_mem_nil t)
  | cons w ws ih =>
    intro T l hws hTlo hThi hl t ht
    obtain ⟨hben, hwlo, hwhi⟩ := hws w (List.mem_cons_self w ws)
    have heval := simulate_step_off_eval house hvac w T tgt hben.1 hben.2.1 hben.2.2.1 hmass
    unfold simulate_temperature_step at heval
    simp only [predict_temperature_go] at hl
    rw [heval] at hl
    simp only [Option.some_bind] at hl
    have hbounds := step_off_bounds house w T ⟨hben.2.2.2.1, hben.2.2.2.2⟩ ⟨hTlo, hThi⟩
      ⟨hwlo, hwhi⟩
    cases hgo : predict_temperature_go WeatherConditions.wet_bulb_temp_c house hvac tgt "off"
        ws (py_round (T + step_coefficient house w 3600 * (w.temp_outdoor_c - T)) 2) with
    | none => rw [hgo] at hl; exact absurd hl (by simp)
    | some rest =>
      rw [hgo] at hl
      simp only [Option.map_some', Option.some.injEq] at hl
      rw [← hl] at ht
      rcases List.mem_cons.mp ht with heq | hrest
      · rw [heq]; exact hbounds
      · exact ih (py_round (T + step_coefficient house w 3600 * (w.temp_outdoor_c - T)) 2)
          rest (fun w2 hw2 => hws w2 (List.mem_cons_of_mem w hw2)) hbounds.1 hbounds.2 hgo
          t hrest

theorem cop_base_furnace : (HVAC_COP_BASE "furnace" : ℝ) = 0.95 := by
  unfold HVAC_COP_BASE
  rw [if_neg (by decide), if_neg (by decide), if_neg (by decide), if_neg (by decide),
    if_pos rfl]

theorem hd1_side : Real.sqrt (floor_area_of hd1) = ((1 / 10 : ℚ) : ℝ) := by
  apply sqrt_floor_area hd1 (1 / 10) (by norm_num)
  unfold floor_area_of
  rw [← cast_SQFT_TO_M2, ← Rat.cast_mul, ← Rat.cast_mul]
  congr 1
  with_unfolding_all rfl

end ClaimHelpers

section Claims1

/-- C2: contrary to the claim, the coefficients derived by
`HouseProperties.from_house_data` are not clamped to any interval:
`thermal_mass` is exactly the per-m² table constant times the floor area
computed from `home_size`, so pathological inputs (e.g. `home_size = 0`)
escape the claimed range `[0.1e6, 10e6]` J/K — see the counterexample.  This
theorem records the actual, unclamped formula. -/
theorem C2_thermal_mass_unclamped (hd : HouseData) :
    (HouseProperties.from_house_data hd).thermal_mass =
      THERMAL_MASS_PER_M2 (insulation_of hd) * ((home_size_sqft hd : ℝ) * SQFT_TO_M2) := rfl

/-- C2 counterexample: with `home_size = 0` the thermal mass is 0 J/K, far
outside the claimed interval `[0.1e6, 10e6]` J/K. -/
theorem C2_counterexample :
    (HouseProperties.from_house_data ⟨some 0, none, none, none, none⟩).thermal_mass = 0 ∧
      ¬((100000 : ℝ) ≤
        (HouseProperties.from_house_data ⟨some 0, none, none, none, none⟩).thermal_mass) := by
  have h : (HouseProperties.from_house_data ⟨some 0, none, none, none, none⟩).thermal_mass
      = 0 := by
    show THERMAL_MASS_PER_M2 (insulation_of ⟨some 0, none, none, none, none⟩) *
      ((home_size_sqft ⟨some 0, none, none, none, none⟩ : ℝ) * SQFT_TO_M2) = 0
    rw [show ((home_size_sqft ⟨some 0, none, none, none, none⟩ : ℚ) : ℝ) = 0 by
      norm_num [home_size_sqft]]
    ring
  refine ⟨h, ?_⟩
  rw [h]
  norm_num

/-- C3: contrary to the claim, `simulate_temperature_step` has no internal
error handling: it propagates the wet-bulb arithmetic error (modeled as
`none`) exactly when it is raining more than 0.1 mm and the humidity is
negative, and on every other input (including zero or negative thermal mass)
it returns normally — it never falls back to the clamped previous
temperature. -/
theorem C3_step_none_iff (house : HouseProperties ℝ) (hvac : HVACSystem ℝ)
    (w : WeatherConditions ℝ) (T tgt ts : ℝ) (mode : String) :
    simulate_temperature_step house hvac w T tgt mode ts = none ↔
      0.1 < w.rain ∧ w.humidity < 0 := by
  constructor
  · intro h
    by_contra hc
    have hs := step_core_isSome WeatherConditions.wet_bulb_temp_c house hvac w T tgt ts
      mode hc
    unfold simulate_temperature_step at h
    rw [h] at hs
    exact absurd hs (by simp)
  · intro hc
    unfold simulate_temperature_step simulate_temperature_step_core calc_q_conductive_core
    rw [if_pos hc]
    rfl

/-- C3 counterexample: on a raining, negative-humidity input the step raises
(returns `none`) instead of returning the clamped previous temperature. -/
theorem C3_counterexample :
    simulate_temperature_step (castH houseXQ) (castHvac hvacXQ)
      ⟨10, -5, 0, 0, 0, 1, 0, 10⟩ 20 22 "off" 3600 = none := by
  unfold simulate_temperature_step simulate_temperature_step_core calc_q_conductive_core
  rw [if_pos ⟨by norm_num, by norm_num⟩]
  rfl

/-- C6: contrary to the claimed ranges ([1.2, 4.0] heating, [1.5, 4.5]
cooling), the COPs are not clamped to them: both are merely strictly positive
(for a nonnegative HVAC age), and a furnace heating COP never exceeds 0.95 —
below the claimed lower bound 1.2 (see the counterexample). -/
theorem C6_cop_positive_unclamped (hvac : HVACSystem ℝ) (t : ℝ)
    (hage : 0 ≤ hvac.hvac_age) :
    0 < hvac.get_cop_heating t ∧ 0 < hvac.get_cop_cooling t ∧
      (hvac.hvac_type = "furnace" → hvac.get_cop_heating t ≤ 0.95) := by
  have hbase : ∀ s : String, (0 : ℝ) < HVAC_COP_BASE s := by
    intro s
    unfold HVAC_COP_BASE
    split_ifs <;> norm_num
  have hagepos : (0 : ℝ) < max 0.6 (1.0 - 0.02 * (hvac.hvac_age : ℝ)) :=
    lt_of_lt_of_le (by norm_num) (le_max_left _ _)
  refine ⟨?_, ?_, ?_⟩
  · unfold HVACSystem.get_cop_heating
    dsimp only
    split_ifs with hf hneg
    · exact mul_pos (hbase "furnace") (lt_of_lt_of_le (by norm_num) (le_max_left _ _))
    · exact mul_pos (mul_pos (hbase _) hagepos)
        (lt_of_lt_of_le (by norm_num) (le_max_left _ _))
    · exact mul_pos (mul_pos (hbase _) hagepos) (by norm_num)
  · unfold HVACSystem.get_cop_cooling
    dsimp only
    split_ifs with h35
    · exact mul_pos (mul_pos (hbase _) hagepos)
        (lt_of_lt_of_le (by norm_num) (le_max_left _ _))
    · exact mul_pos (mul_pos (hbase _) hagepos) (by norm_num)
  · intro hf
    unfold HVACSystem.get_cop_heating
    rw [if_pos hf]
    have hagecast : (0 : ℝ) ≤ (hvac.hvac_age : ℝ) := by exact_mod_cast hage
    have hle : max 0.6 (1.0 - 0.01 * (hvac.hvac_age : ℝ)) ≤ 1 := by
      apply max_le (by norm_num)
      nlinarith
    calc HVAC_COP_BASE "furnace" * max 0.6 (1.0 - 0.01 * (hvac.hvac_age : ℝ))
        ≤ HVAC_COP_BASE "furnace" * 1 :=
          mul_le_mul_of_nonneg_left hle (le_of_lt (hbase "furnace"))
      _ ≤ 0.95 := by rw [cop_base_furnace]; norm_num

/-- C6 counterexample: a 10-year-old furnace has heating COP
0.95 × 0.9 = 0.855 < 1.2, violating the claimed range. -/
theorem C6_counterexample :
    HVACSystem.get_cop_heating (⟨"furnace", 10, 8790, 8790⟩ : HVACSystem ℝ) 0 = 0.855 ∧
      ¬((1.2 : ℝ) ≤ 0.855) := by
  constructor
  · unfold HVACSystem.get_cop_heating
    rw [if_pos rfl, cop_base_furnace]
    show (0.95 : ℝ) * max 0.6 (1.0 - 0.01 * ((10 : ℤ) : ℝ)) = 0.855
    rw [show ((10 : ℤ) : ℝ) = 10 by norm_num]
    rw [max_eq_right (by norm_num : (0.6 : ℝ) ≤ 1.0 - 0.01 * 10)]
    norm_num
  · norm_num

/-- C6 witness: a 10-year-old central AC at 0 °C outdoors. -/
theorem C6_witness :
    (0 : ℤ) ≤ (⟨"central_ac", 10, 8790, 8790⟩ : HVACSystem ℝ).hvac_age ∧
    (0 < HVACSystem.get_cop_heating (⟨"central_ac", 10, 8790, 8790⟩ : HVACSystem ℝ) 0 ∧
      0 < HVACSystem.get_cop_cooling (⟨"central_ac", 10, 8790, 8790⟩ : HVACSystem ℝ) 0 ∧
      ((⟨"central_ac", 10, 8790, 8790⟩ : HVACSystem ℝ).hvac_type = "furnace" →
        HVACSystem.get_cop_heating (⟨"central_ac", 10, 8790, 8790⟩ : HVACSystem ℝ) 0 ≤
          0.95)) :=
  ⟨by norm_num, C6_cop_positive_unclamped ⟨"central_ac", 10, 8790, 8790⟩ 0 (by norm_num)⟩

/-- C8: `get_cop_heating` is non-increasing as the HVAC age increases (other
inputs fixed), and `get_cop_cooling` is non-increasing as the outdoor
temperature rises at or above 35 °C. -/
theorem C8_cop_monotone (typ : String) (ch cc t : ℝ) (a1 a2 : ℤ) (hvac : HVACSystem ℝ)
    (t1 t2 : ℝ) (hage : a1 ≤ a2) (h35 : 35 ≤ t1) (ht : t1 ≤ t2) :
    HVACSystem.get_cop_heating ⟨typ, a2, ch, cc⟩ t ≤
      HVACSystem.get_cop_heating ⟨typ, a1, ch, cc⟩ t ∧
    hvac.get_cop_cooling t2 ≤ hvac.get_cop_cooling t1 := by
  have hbase : ∀ s : String, (0 : ℝ) ≤ HVAC_COP_BASE s := by
    intro s
    unfold HVAC_COP_BASE
    split_ifs <;> norm_num
  have hcast : (a1 : ℝ) ≤ (a2 : ℝ) := by exact_mod_cast hage
  have hmax2 : max 0.6 (1.0 - 0.02 * (a2 : ℝ)) ≤ max 0.6 (1.0 - 0.02 * (a1 : ℝ)) :=
    max_le_max le_rfl (by nlinarith)
  have hmax1 : max 0.6 (1.0 - 0.01 * (a2 : ℝ)) ≤ max 0.6 (1.0 - 0.01 * (a1 : ℝ)) :=
    max_le_max le_rfl (by nlinarith)
  constructor
  · unfold HVACSystem.get_cop_heating
    dsimp only
    split_ifs with hf hneg
    · exact mul_le_mul_of_nonneg_left hmax1 (hbase "furnace")
    · exact mul_le_mul_of_nonneg_right (mul_le_mul_of_nonneg_left hmax2 (hbase typ))
        (le_trans (by norm_num) (le_max_left 0.3 (1.0 - 0.03 * |t|)))
    · exact mul_le_mul_of_nonneg_right (mul_le_mul_of_nonneg_left hmax2 (hbase typ))
        (by norm_num)
  · unfold HVACSystem.get_cop_cooling
    dsimp only
    have hag : (0 : ℝ) ≤ max 0.6 (1.0 - 0.02 * (hvac.hvac_age : ℝ)) :=
      le_trans (by norm_num) (le_max_left _ _)
    have hba : (0 : ℝ) ≤ HVAC_COP_BASE hvac.hvac_type *
        max 0.6 (1.0 - 0.02 * (hvac.hvac_age : ℝ)) := mul_nonneg (hbase _) hag
    split_ifs with ha hb hc
    · exact mul_le_mul_of_nonneg_left (max_le_max le_rfl (by nlinarith)) hba
    · exact mul_le_mul_of_nonneg_left (max_le (by norm_num) (by nlinarith)) hba
    · exact absurd (lt_of_lt_of_le hc ht) ha
    · exact le_rfl

/-- C8 witness: heat-pump ages 5 ≤ 15 and cooling temperatures 36 ≤ 40. -/
theorem C8_witness :
    ((5 : ℤ) ≤ 15 ∧ (35 : ℝ) ≤ 36 ∧ (36 : ℝ) ≤ 40) ∧
    (HVACSystem.get_cop_heating (⟨"heat_pump", 15, 8790, 8790⟩ : HVACSystem ℝ) 0 ≤
        HVACSystem.get_cop_heating (⟨"heat_pump", 5, 8790, 8790⟩ : HVACSystem ℝ) 0 ∧
      HVACSystem.get_cop_cooling (⟨"central_ac", 10, 8790, 8790⟩ : HVACSystem ℝ) 40 ≤
        HVACSystem.get_cop_cooling (⟨"central_ac", 10, 8790, 8790⟩ : HVACSystem ℝ) 36) :=
  ⟨⟨by norm_num, by norm_num, by norm_num⟩,
    C8_cop_monotone "heat_pump" 8790 8790 0 5 15 ⟨"central_ac", 10, 8790, 8790⟩ 36 40
      (by norm_num) (by norm_num) (by norm_num)⟩

/-- C10: in heat/pre-heat mode the temperature returned by
`simulate_temperature_step` never exceeds `target_temp_c + 0.5` by more than
the final 2-decimal rounding slack (1/200 °C), and dually in cool/pre-cool
mode it never drops below `target_temp_c - 0.5` by more than 1/200 °C,
however large the computed physical change is. -/
theorem C10_overshoot_clamped (house : HouseProperties ℝ) (hvac : HVACSystem ℝ)
    (w : WeatherConditions ℝ) (T tgt ts : ℝ) (mode : String) (out : ℝ × ℝ × ℝ)
    (hout : simulate_temperature_step house hvac w T tgt mode ts = some out) :
    ((mode = "heat" ∨ mode = "pre-heat") → out.1 ≤ tgt + 0.5 + 1 / 200) ∧
    ((mode = "cool" ∨ mode = "pre-cool") → tgt - 0.5 - 1 / 200 ≤ out.1) := by
  unfold simulate_temperature_step at hout
  exact step_core_clamped WeatherConditions.wet_bulb_temp_c house hvac w T tgt ts mode
    out hout

/-- C10 witness: a concrete heating step at the fixture house lands at
19.05 °C ≤ 22 + 0.5 + 1/200. -/
theorem C10_witness :
    simulate_temperature_step (castH houseXQ) (castHvac hvacXQ) (castW wXQ)
        ((15 : ℚ) : ℝ) ((22 : ℚ) : ℝ) "heat" ((3600 : ℚ) : ℝ) =
      some (((381/20 : ℚ) : ℝ), ((321429/100 : ℚ) : ℝ), ((32143/10000 : ℚ) : ℝ)) ∧
    ((381/20 : ℚ) : ℝ) ≤ ((22 : ℚ) : ℝ) + 0.5 + 1 / 200 := by
  have hstep : simulate_temperature_step (castH houseXQ) (castHvac hvacXQ) (castW wXQ)
      ((15 : ℚ) : ℝ) ((22 : ℚ) : ℝ) "heat" ((3600 : ℚ) : ℝ) =
      some (((381/20 : ℚ) : ℝ), ((321429/100 : ℚ) : ℝ), ((32143/10000 : ℚ) : ℝ)) := by
    rw [simulate_temperature_step_cast houseXQ hvacXQ wXQ 15 22 3600 "heat"
      (Or.inl (by norm_num [wXQ]))]
    rw [show simulate_temperature_step_core zeroWB houseXQ hvacXQ wXQ 15 22 "heat" 3600 =
      some (381/20, 321429/100, 32143/10000) from by with_unfolding_all rfl]
    rfl
  exact ⟨hstep, (C10_overshoot_clamped (castH houseXQ) (castHvac hvacXQ) (castW wXQ)
    ((15 : ℚ) : ℝ) ((22 : ℚ) : ℝ) ((3600 : ℚ) : ℝ) "heat" _ hstep).1 (Or.inl rfl)⟩

end Claims1

section Claims2

/-- C1: amended — the documented range [-50, 70] °C is an invariant of the
iterated step (as run by `predict_temperature` with HVAC off) only under the
additional hypothesis that every forecast step has a passive contraction
coefficient in [0, 1] and outdoor temperatures inside the range; no clamping
exists in the code, and the counterexample exhibits a `from_house_data` house
whose iterate leaves the range. -/
theorem C1_range_invariant (house : HouseProperties ℝ) (hvac : HVACSystem ℝ)
    (ws : List (WeatherConditions ℝ)) (start tgt : ℝ) (l : List ℝ)
    (hmass : 0 < house.thermal_mass)
    (hws : ∀ w ∈ ws, benign_off_weather house w ∧ -50 ≤ w.temp_outdoor_c ∧
      w.temp_outdoor_c ≤ 70)
    (hstart : -50 ≤ start ∧ start ≤ 70)
    (hl : predict_temperature house hvac ws start tgt "off" = some l) :
    ∀ t ∈ l, -50 ≤ t ∧ t ≤ 70 := by
  unfold predict_temperature predict_temperature_core at hl
  cases hgo : predict_temperature_go WeatherConditions.wet_bulb_temp_c house hvac tgt "off"
      ws start with
  | none => rw [hgo] at hl; exact absurd hl (by simp)
  | some rest =>
    rw [hgo] at hl
    simp only [Option.map_some', Option.some.injEq] at hl
    intro t ht
    rw [← hl] at ht
    rcases List.mem_cons.mp ht with heq | hrest
    · rw [heq]; exact hstart
    · exact predict_go_off_bounds house hvac tgt hmass ws start rest hws hstart.1 hstart.2
        hgo t hrest

/-- C1 counterexample: the pathological (but `from_house_data`-generated)
house `hd1` jumps from -50 °C to 1230.17 °C in one hour of 40 °C weather:
the output leaves [-50, 70] °C. -/
theorem C1_counterexample :
    predict_temperature (HouseProperties.from_house_data hd1)
        (HVACSystem.from_house_data hd1) [castW w40Q] (-50) 22 "off" =
      some [((-50 : ℚ) : ℝ), ((123017/100 : ℚ) : ℝ)] ∧
    (70 : ℝ) < ((123017/100 : ℚ) : ℝ) := by
  constructor
  · have hws : ∀ w ∈ [w40Q], wet_bulb_free w := by
      intro w hw
      rw [List.mem_singleton] at hw
      subst hw
      exact Or.inl (by norm_num [w40Q])
    rw [show (-50 : ℝ) = ((-50 : ℚ) : ℝ) by norm_num,
      show (22 : ℝ) = ((22 : ℚ) : ℝ) by norm_num,
      from_house_data_cast hd1 (1 / 10) hd1_side, hvac_from_house_data_cast,
      show [castW w40Q] = [w40Q].map castW from rfl,
      predict_temperature_cast (HouseProperties.from_house_data_core hd1 (1 / 10))
        (HVACSystem.from_house_data hd1) zeroWB [w40Q] (-50) 22 "off" hws]
    rw [show predict_temperature_core zeroWB
        (HouseProperties.from_house_data_core hd1 (1 / 10))
        (HVACSystem.from_house_data hd1) [w40Q] (-50) 22 "off" =
        some [-50, 123017/100] from by with_unfolding_all rfl]
    rfl
  · exact_mod_cast (by norm_num : (70 : ℚ) < 123017/100)

/-- C1 witness: an ordinary house (coefficient ≈ 0.07) stays inside
[-50, 70] °C. -/
theorem C1_witness :
    ((0 : ℝ) < (castH houseXQ).thermal_mass ∧ (-50 : ℝ) ≤ ((15 : ℚ) : ℝ) ∧
      ((15 : ℚ) : ℝ) ≤ 70) ∧
    (-50 ≤ ((384/25 : ℚ) : ℝ) ∧ ((384/25 : ℚ) : ℝ) ≤ 70) := by
  have hmass : (0 : ℝ) < (castH houseXQ).thermal_mass := by norm_num [castH, houseXQ]
  have hl : predict_temperature (castH houseXQ) (castHvac hvacXQ) [castW wBenQ]
      ((15 : ℚ) : ℝ) ((22 : ℚ) : ℝ) "off" =
      some [((15 : ℚ) : ℝ), ((384/25 : ℚ) : ℝ)] := by
    rw [show [castW wBenQ] = [wBenQ].map castW from rfl,
      predict_temperature_cast houseXQ hvacXQ zeroWB [wBenQ] 15 22 "off" ?_]
    · rw [show predict_temperature_core zeroWB houseXQ hvacXQ [wBenQ] 15 22 "off" =
        some [15, 384/25] from by with_unfolding_all rfl]
      rfl
    · intro w hw
      rw [List.mem_singleton] at hw
      subst hw
      exact Or.inl (by norm_num [wBenQ])
  have hws : ∀ w ∈ [castW wBenQ], benign_off_weather (castH houseXQ) w ∧
      -50 ≤ w.temp_outdoor_c ∧ w.temp_outdoor_c ≤ 70 := by
    intro w hw
    rw [List.mem_singleton] at hw
    subst hw
    refine ⟨?_, by norm_num [castW, wBenQ], by norm_num [castW, wBenQ]⟩
    unfold benign_off_weather
    refine ⟨by norm_num [castW, wBenQ], by norm_num [castW, wBenQ],
      by norm_num [castW, wBenQ], ?_, ?_⟩ <;>
    · unfold step_coefficient AIR_DENSITY AIR_SPECIFIC_HEAT castH castW houseXQ wBenQ
      push_cast
      norm_num
  exact ⟨⟨hmass, by norm_num, by norm_num⟩,
    C1_range_invariant (castH houseXQ) (castHvac hvacXQ) [castW wBenQ] ((15 : ℚ) : ℝ)
      ((22 : ℚ) : ℝ) [((15 : ℚ) : ℝ), ((384/25 : ℚ) : ℝ)] hmass hws
      ⟨by norm_num, by norm_num⟩ hl ((384/25 : ℚ) : ℝ) (by simp)⟩

/-- C7: amended — with HVAC off and benign weather whose passive coefficient
lies in [0, 1], one step moves the (hundredths-grid) indoor temperature toward
the outdoor temperature monotonically, never crossing it by more than the
0.005 °C output rounding slack; iterating preserves this per step.  Without
the coefficient hypothesis the counterexample overshoots past `T_out`. -/
theorem C7_monotone_toward_outdoor (house : HouseProperties ℝ) (hvac : HVACSystem ℝ)
    (w : WeatherConditions ℝ) (T tgt : ℝ) (out : ℝ × ℝ × ℝ)
    (hben : benign_off_weather house w) (hmass : 0 < house.thermal_mass)
    (hgrid : py_round T 2 = T)
    (hout : simulate_temperature_step house hvac w T tgt "off" 3600 = some out) :
    (T ≤ w.temp_outdoor_c → T ≤ out.1 ∧ out.1 ≤ w.temp_outdoor_c + 1 / 200) ∧
    (w.temp_outdoor_c ≤ T → out.1 ≤ T ∧ w.temp_outdoor_c - 1 / 200 ≤ out.1) := by
  obtain ⟨hrain, hsnow, hsolar, hc0, hc1⟩ := hben
  have heval := simulate_step_off_eval house hvac w T tgt hrain hsnow hsolar hmass
  rw [heval, Option.some.injEq] at hout
  subst hout
  obtain ⟨h1, h2⟩ := @convex_between T w.temp_outdoor_c (step_coefficient house w 3600)
    hc0 hc1
  constructor
  · intro hTo
    rw [min_eq_left hTo] at h1
    rw [max_eq_right hTo] at h2
    constructor
    · show T ≤ py_round (T + step_coefficient house w 3600 * (w.temp_outdoor_c - T)) 2
      conv_lhs => rw [← hgrid]
      exact py_round_mono 2 h1
    · exact py_round_le_of_le h2
  · intro hTo
    rw [min_eq_right hTo] at h1
    rw [max_eq_left hTo] at h2
    constructor
    · show py_round (T + step_coefficient house w 3600 * (w.temp_outdoor_c - T)) 2 ≤ T
      conv_rhs => rw [← hgrid]
      exact py_round_mono 2 h2
    · exact le_py_round_of_le h1

/-- C7 counterexample: the `from_house_data` house `hd1` (coefficient > 1)
jumps from 0 °C past the 20 °C outdoor temperature to 284.48 °C — repeated
steps overshoot instead of converging monotonically. -/
theorem C7_counterexample :
    predict_temperature (HouseProperties.from_house_data hd1)
        (HVACSystem.from_house_data hd1) [castW w20Q] 0 22 "off" =
      some [((0 : ℚ) : ℝ), ((7112/25 : ℚ) : ℝ)] ∧
    (20 : ℝ) < ((7112/25 : ℚ) : ℝ) := by
  constructor
  · have hws : ∀ w ∈ [w20Q], wet_bulb_free w := by
      intro w hw
      rw [List.mem_singleton] at hw
      subst hw
      exact Or.inl (by norm_num [w20Q])
    rw [show (0 : ℝ) = ((0 : ℚ) : ℝ) by norm_num,
      show (22 : ℝ) = ((22 : ℚ) : ℝ) by norm_num,
      from_house_data_cast hd1 (1 / 10) hd1_side, hvac_from_house_data_cast,
      show [castW w20Q] = [w20Q].map castW from rfl,
      predict_temperature_cast (HouseProperties.from_house_data_core hd1 (1 / 10))
        (HVACSystem.from_house_data hd1) zeroWB [w20Q] 0 22 "off" hws]
    rw [show predict_temperature_core zeroWB
        (HouseProperties.from_house_data_core hd1 (1 / 10))
        (HVACSystem.from_house_data hd1) [w20Q] 0 22 "off" = some [0, 7112/25] from by
      with_unfolding_all rfl]
    rfl
  · exact_mod_cast (by norm_num : (20 : ℚ) < 7112/25)

/-- C7 witness: a contraction step from 15 °C toward 20 °C lands at 15.36 °C,
between the two. -/
theorem C7_witness :
    (((15 : ℚ) : ℝ) ≤ (castW wBenQ).temp_outdoor_c) ∧
    (((15 : ℚ) : ℝ) ≤ ((384/25 : ℚ) : ℝ) ∧
      ((384/25 : ℚ) : ℝ) ≤ (castW wBenQ).temp_outdoor_c + 1 / 200) := by
  have hTo : ((15 : ℚ) : ℝ) ≤ (castW wBenQ).temp_outdoor_c := by norm_num [castW, wBenQ]
  have hben : benign_off_weather (castH houseXQ) (castW wBenQ) := by
    unfold benign_off_weather
    refine ⟨by norm_num [castW, wBenQ], by norm_num [castW, wBenQ],
      by norm_num [castW, wBenQ], ?_, ?_⟩ <;>
    · unfold step_coefficient AIR_DENSITY AIR_SPECIFIC_HEAT castH castW houseXQ wBenQ
      push_cast
      norm_num
  have hmass : (0 : ℝ) < (castH houseXQ).thermal_mass := by norm_num [castH, houseXQ]
  have hgrid : py_round ((15 : ℚ) : ℝ) 2 = ((15 : ℚ) : ℝ) := by
    rw [show ((15 : ℚ) : ℝ) = ((1500 : ℤ) : ℝ) / 10 ^ 2 by push_cast; norm_num]
    exact py_round_int 1500 2
  have hstep : simulate_temperature_step (castH houseXQ) (castHvac hvacXQ) (castW wBenQ)
      ((15 : ℚ) : ℝ) ((22 : ℚ) : ℝ) "off" 3600 =
      some (((384/25 : ℚ) : ℝ), ((0 : ℚ) : ℝ), ((0 : ℚ) : ℝ)) := by
    rw [show (3600 : ℝ) = ((3600 : ℚ) : ℝ) by norm_num,
      simulate_temperature_step_cast houseXQ hvacXQ wBenQ 15 22 3600 "off"
        (Or.inl (by norm_num [wBenQ]))]
    rw [show simulate_temperature_step_core zeroWB houseXQ hvacXQ wBenQ 15 22 "off" 3600 =
      some (384/25, 0, 0) from by with_unfolding_all rfl]
    rfl
  exact ⟨hTo, (C7_monotone_toward_outdoor (castH houseXQ) (castHvac hvacXQ) (castW wBenQ)
    ((15 : ℚ) : ℝ) ((22 : ℚ) : ℝ) _ hben hmass hgrid hstep).1 hTo⟩

end Claims2
